import Mathlib

/-!
# Verification of the SpacemanDMM expression model and render-pass pipeline

A shallow embedding of the DM abstract syntax tree (`src/dm/ast.rs`) and of
the map-rendering pass machinery (`src/tools/render_passes/mod.rs`), with
theorems settling the specification claims about them.

Conventions of the embedding:
* Rust enums become Lean inductives with the source constructor names.
* `Vec<T>` becomes `List T`; `Box<T>` disappears (Lean values are boxed).
* `i32` literals carried by the AST are modelled as `Int`; the claims never
  exercise 32-bit wrap-around.
* `f32` literal payloads are kept uninterpreted (a bit-pattern wrapper):
  no claim computes with floats.
* Collaborators that are not part of the provided sources (the object tree,
  `Atom`, `Constant`, the pipeline driver) are modelled from the spec; each
  such definition says so in its doc comment.
-/

namespace DM

/-- Unary operators, from `ast.rs` (`enum UnaryOp`). -/
inductive UnaryOp where
  | Neg
  | Not
  | BitNot
  | PreIncr
  | PostIncr
  | PreDecr
  | PostDecr
deriving DecidableEq

/-- Path operators, from `ast.rs` (`enum PathOp`). -/
inductive PathOp where
  | Slash
  | Dot
  | Colon
deriving DecidableEq

/-- Binary operators, from `ast.rs` (`enum BinaryOp`). -/
inductive BinaryOp where
  | Pow
  | Add
  | Sub
  | Mul
  | Div
  | Mod
  | Less
  | Greater
  | LessEq
  | GreaterEq
  | LShift
  | RShift
  | Eq
  | NotEq
  | BitAnd
  | BitXor
  | BitOr
  | And
  | Or
deriving DecidableEq

/-- Assignment operators, from `ast.rs` (`enum AssignOp`). -/
inductive AssignOp where
  | Assign
  | AddAssign
  | SubAssign
  | MulAssign
  | DivAssign
  | BitAndAssign
  | BitOrAssign
  | BitXorAssign
  | LShiftAssign
  | RShiftAssign
deriving DecidableEq

/-- `BinaryOp::assignop` from `ast.rs`: the body is literally `None  // TODO`
in the source, so the embedding returns `none` for every operator. -/
def BinaryOp.assignop (_ : BinaryOp) : Option AssignOp :=
  none

/-- `AssignOp::binop` from `ast.rs`: the body is literally `None  // TODO`
in the source, so the embedding returns `none` for every operator. -/
def AssignOp.binop (_ : AssignOp) : Option BinaryOp :=
  none

/-- A type path, from `ast.rs` (`type TypePath = Vec<(PathOp, String)>`). -/
def TypePath := List (PathOp × String)

/-- Uninterpreted stand-in for an `f32` literal payload: the bit pattern is
carried around but never computed with (no claim evaluates floats). -/
structure F32 where
  bits : Nat
deriving DecidableEq

mutual

/-- An expression, from `ast.rs` (`enum Expression`). -/
inductive Expression where
  /-- A term with its unary operators (in reverse order) and follows. -/
  | Base (unary : List UnaryOp) (term : Term) (follow : List Follow)
  /-- A binary operation. -/
  | BinaryOp (op : BinaryOp) (lhs : Expression) (rhs : Expression)
  /-- An assignment operation. -/
  | AssignOp (op : AssignOp) (lhs : Expression) (rhs : Expression)

/-- A term, from `ast.rs` (`enum Term`). -/
inductive Term where
  /-- The literal `null`. -/
  | Null
  /-- A `new` call. -/
  | New (type_ : NewType) (args : List Expression)
  /-- A `list` call. -/
  | List (args : List (Expression × Option Expression))
  /-- An unscoped function call. -/
  | Call (name : String) (args : List Expression)
  /-- A prefab literal (path + vars). -/
  | Prefab (prefab : Prefab)
  /-- An identifier. -/
  | Ident (name : String)
  /-- A string literal. -/
  | String (s : String)
  /-- A resource literal. -/
  | Resource (path : String)
  /-- An integer literal. -/
  | Int (n : Int)
  /-- A floating-point literal. -/
  | Float (f : F32)
  /-- An expression contained in a term. -/
  | Expr (expr : Expression)

/-- A follow, from `ast.rs` (`enum Follow`). -/
inductive Follow where
  /-- Access a field of the value. -/
  | Field (name : String)
  /-- Index the value by an expression. -/
  | Index (idx : Expression)
  /-- Call a method of the value. -/
  | Call (name : String) (args : List Expression)

/-- The type argument of a `new` call, from `ast.rs` (`enum NewType`). -/
inductive NewType where
  | Implicit
  | Ident (name : String)
  | Prefab (prefab : Prefab)

/-- A prefab, from `ast.rs` (`struct Prefab`): a type path plus an ordered
variable map (the `LinkedHashMap` becomes an association list). -/
inductive Prefab where
  | mk (path : List (PathOp × String)) (vars : List (String × Expression))

end

/-- `impl From<Term> for Expression` from `ast.rs`: wrap a term with empty
unary and follow lists. -/
def Expression.fromTerm (term : Term) : Expression :=
  Expression.Base [] term []

/-- `impl From<Expression> for Term` from `ast.rs`: collapse a no-op wrapper
(empty unary and follow lists) back to its inner term, recursively unwrapping
nested parenthesization; anything else is boxed as `Term.Expr`. -/
def Term.fromExpression : Expression → Term
  | Expression.Base unary term follow =>
      if unary.isEmpty && follow.isEmpty then
        match term with
        | Term.Expr expr => Term.fromExpression expr
        | other => other
      else
        Term.Expr (Expression.Base unary term follow)
  | other => Term.Expr other

/-! ## Strings and type paths

The render passes query atoms through two string-level collaborators that are
not part of the provided sources: the object tree's `subpath` and the
`Atom`/`Constant` value model of the minimap. They are modelled from the
spec here. -/

/-- Boolean test that the first character list leads (is an initial segment
of) the second. -/
def leadsWith : List Char → List Char → Bool
  | [], _ => true
  | _ :: _, [] => false
  | a :: as, b :: bs => a == b && leadsWith as bs

/-- Boolean substring test over character lists: does `pat` occur
contiguously inside `s`? Mirrors Rust's `str::contains`. -/
def charsContain : List Char → List Char → Bool
  | pat, [] => pat.isEmpty
  | pat, c :: t => leadsWith pat (c :: t) || charsContain pat t

/-- Rust `p.contains(pat)` on strings. -/
def strContains (p pat : String) : Bool :=
  charsContain pat.toList p.toList

/-- Modelled from the spec: `dm::objtree::subpath` (object tree, not among
the provided sources). Per spec section 3, path `A` is a subtype of `B` iff
`A`'s segment sequence begins with `B`'s full segment sequence; queries are
written with a trailing slash, so this is: `A` equals `B` minus its trailing
slash, or `B` is a string prefix of `A`. -/
def subpath (path parent : String) : Bool :=
  path.toList == parent.toList.dropLast || leadsWith parent.toList path.toList

/-- Modelled from the spec: the evaluated constant value space (section 3,
`Constant`; the `dm::constants` module is not among the provided sources).
Numeric payloads are modelled exactly (`Int` for integers, `Rat` for the
float payloads the claims compare against thresholds); the list and
prefab-reference constant forms are omitted as no claim touches them. -/
inductive Constant where
  | Null
  | Int (n : Int)
  | Float (q : Rat)
  | Str (s : String)
  | Resource (path : String)
deriving DecidableEq

/-- Modelled from the spec: `Constant::to_float` — numeric constants yield
their numeric value, anything else fails (the claims rely only on the
numeric/non-numeric distinction and the ordering against thresholds). -/
def Constant.to_float : Constant → Option Rat
  | Constant.Int n => some (n : Rat)
  | Constant.Float q => some q
  | _ => none

/-- Association-list lookup for atom variables (first binding wins). -/
def lookupVar (name : String) : List (String × Constant) → Option Constant
  | [] => none
  | (k, v) :: rest => if name = k then some v else lookupVar name rest

/-- Modelled from the spec (section 3, `Atom`; the minimap module is not
among the provided sources): a resolved, typed instance — a type path, a
resolved variable mapping, and a map location. -/
structure Atom where
  path : String
  vars : List (String × Constant)
  loc : Nat × Nat × Nat
deriving DecidableEq

/-- Modelled from the spec: variable lookup on an atom's resolved variables;
a name no binding defines yields the null constant (the non-numeric value
that pass-level `unwrap_or`-style defaulting then maps to a fallback). -/
def Atom.get_var (a : Atom) (name : String) : Constant :=
  (lookupVar name a.vars).getD Constant.Null

/-- Modelled from the spec: `Atom::set_var` — bind a variable on the atom,
shadowing any previous binding. -/
def Atom.set_var (a : Atom) (name : String) (v : Constant) : Atom :=
  { a with vars := (name, v) :: a.vars }

/-- Modelled from the spec: `Atom::istype` — the subtype test of the atom's
own path against a parent path written with a trailing slash. -/
def Atom.istype (a : Atom) (parent : String) : Bool :=
  subpath a.path parent

/-- Modelled from the spec: `Atom::from_type` — a fresh atom of the given
type at the given location, with no instance-level variable overrides. -/
def Atom.from_type (path : String) (loc : Nat × Nat × Nat) : Atom :=
  { path := path, vars := [], loc := loc }

/-- Modelled from the spec (section 6: a sprite descriptor with `plane` and
`layer` integers; the minimap `Sprite` is not among the provided sources). -/
structure Sprite where
  plane : Int
  layer : Int
deriving DecidableEq

/-! ## The render-pass registry and `configure`
from `src/tools/render_passes/mod.rs`. -/

/-- `struct RenderPassInfo` from `mod.rs`. The `new` constructor field is a
function pointer in the source; the embedding identifies a configured pass
with its registry record, so that field is dropped. -/
structure RenderPassInfo where
  name : String
  desc : String
  default : Bool
deriving DecidableEq

/-- `RENDER_PASSES` from `mod.rs`: the static registry, in source order. -/
def RENDER_PASSES : List RenderPassInfo := [
  { name := "hide-space", desc := "Do not render space tiles, instead leaving transparency.", default := true },
  { name := "hide-areas", desc := "Do not render area icons.", default := true },
  { name := "hide-invisible", desc := "Do not render invisible or ephemeral objects such as mapping helpers.", default := true },
  { name := "random", desc := "Replace random spawners with one of their possibilities.", default := true },
  { name := "pretty", desc := "Add the minor cosmetic overlays for various objects.", default := true },
  { name := "spawners", desc := "Replace object spawners with their spawned objects.", default := true },
  { name := "fake-glass", desc := "Add underlays to fake glass turfs.", default := true },
  { name := "transit-tube", desc := "Add overlays to connect transit tubes together.", default := true },
  { name := "gravity-gen", desc := "Expand the gravity generator to the full structure.", default := true },
  { name := "only-powernet", desc := "Render only power cables.", default := false },
  { name := "only-pipenet", desc := "Render only atmospheric pipes.", default := false },
  { name := "fancy-layers", desc := "Layer atoms according to in-game rules.", default := true }
]

/-- Rust `s.split(",")`: comma splitting that yields `[""]` on the empty
string and keeps empty fields. -/
def splitCommaAux : List Char → List Char → List String
  | acc, [] => [String.mk acc.reverse]
  | acc, c :: rest =>
      if c = ',' then String.mk acc.reverse :: splitCommaAux [] rest
      else splitCommaAux (c :: acc) rest

/-- Rust `s.split(",").collect::<Vec<_>>()`. -/
def splitComma (s : String) : List String :=
  splitCommaAux [] s.toList

/-- The per-pass decision of `configure` in `mod.rs`: the `if`/`else if`
chain over explicit include, explicit exclude, wildcard include, wildcard
exclude, and the pass's default flag, in that order. -/
def passDecision (inc exc : List String) (pass : RenderPassInfo) : Bool :=
  if inc.contains pass.name then true
  else if exc.contains pass.name then false
  else if inc.contains "all" then true
  else if exc.contains "all" then false
  else pass.default

/-- `configure` from `mod.rs`: split both comma-separated lists, then keep
the registry passes selected by `passDecision`, in registry order. -/
def configure (incS excS : String) : List RenderPassInfo :=
  let inc := splitComma incS
  let exc := splitComma excS
  RENDER_PASSES.filter (fun pass => passDecision inc exc pass)

/-! ## The built-in passes from `mod.rs`

Hooks that in Rust push into `&mut Vec` accumulators are embedded as
functions returning the pushed elements; hooks taking `&mut Atom` that may
mutate it also return the (possibly updated) atom. -/

/-- `add_to` from `mod.rs`: push a copy of the atom with its `icon_state`
replaced onto the target accumulator. -/
def add_to (target : List Atom) (atom : Atom) (icon : String) : List Atom :=
  target ++ [atom.set_var "icon_state" (Constant.Str icon)]

/-- `HideSpace::expand` from `mod.rs`: a placeholder turf is replaced by a
fresh open-space atom at the same location and the original is consumed
(`true`); anything else is left alone. Returns (pushed output, consumed). -/
def hideSpace_expand (atom : Atom) : List Atom × Bool :=
  if atom.istype "/turf/template_noop/" then
    ([Atom.from_type "/turf/open/space" atom.loc], true)
  else
    ([], false)

/-- `HideSpace::late_filter` from `mod.rs`: keep exactly the atoms that are
not open-space turfs. -/
def hideSpace_late_filter (atom : Atom) : Bool :=
  !(atom.istype "/turf/open/space/")

/-- Modelled from the spec (section 4.4; the pipeline driver lives in the
minimap module, not among the provided sources): the expand stage runs over
every atom — a consumed original is dropped, expansion output is appended —
and every surviving atom then passes through `late_filter`. Specialized to
the `HideSpace` pass, the only one claim C4 enables. -/
def hideSpacePipeline (atoms : List Atom) : List Atom :=
  ((atoms.map fun a =>
      let r := hideSpace_expand a
      (if r.2 then [] else [a]) ++ r.1).flatten).filter hideSpace_late_filter

/-- `HideInvisible::early_filter` from `mod.rs`: reject atoms whose
`invisibility` (defaulted to 0 when missing or non-numeric) exceeds 60 or
that sit under the mapping-helpers branch; reject the disguised
syndicate-balloon special case unless the atom is the canonical balloon
type; keep everything else. -/
def hideInvisible_early_filter (atom : Atom) : Bool :=
  if ((atom.get_var "invisibility").to_float.getD 0 > 60
      || atom.istype "/obj/effect/mapping_helpers/" : Bool) then
    false
  else if ((atom.get_var "icon" == Constant.Str "icons/obj/items_and_weapons.dmi")
      && (atom.get_var "icon_state" == Constant.Str "syndballoon")
      && !(atom.istype "/obj/item/toy/syndicateballoon/") : Bool) then
    false
  else
    true

/-- `FakeGlass::overlays` from `mod.rs`: for a fake-glass turf, push two
copies onto the underlays — first re-iconed as floor plating, then as a
grille — and touch nothing else. Returns (atom, pushed underlays, pushed
overlays); the source takes the atom by `&mut` but never mutates it. -/
def fakeGlass_overlays (atom : Atom) : Atom × List Atom × List Atom :=
  if atom.istype "/turf/closed/indestructible/fakeglass/" then
    let copy1 := (atom.set_var "icon" (Constant.Str "icons/turf/floors.dmi")).set_var
      "icon_state" (Constant.Str "plating")
    let copy2 := (atom.set_var "icon" (Constant.Str "icons/obj/structures.dmi")).set_var
      "icon_state" (Constant.Str "grille")
    (atom, [copy1, copy2], [])
  else
    (atom, [], [])

/-- `Pretty::overlays` from `mod.rs`: illustration overlay for storage boxes
(papersacks excepted), the fixed three-overlay set for fire alarms, and the
tiered tank overlays for tank dispensers. Returns (atom, pushed overlays);
the source takes the atom by `&mut` but never mutates it, and never touches
the underlay accumulator. -/
def pretty_overlays (atom : Atom) : Atom × List Atom :=
  if (atom.istype "/obj/item/storage/box/"
      && !(atom.istype "/obj/item/storage/box/papersack/") : Bool) then
    (atom, [atom.set_var "icon_state" (atom.get_var "illustration")])
  else if atom.istype "/obj/machinery/firealarm/" then
    (atom, add_to (add_to (add_to [] atom "fire_overlay") atom "fire_0") atom "fire_off")
  else if atom.istype "/obj/structure/tank_dispenser/" then
    let o1 := match atom.get_var "oxygentanks" with
      | Constant.Int oxygen =>
          if 4 ≤ oxygen then add_to [] atom "oxygen-4"
          else if 0 < oxygen then add_to [] atom ("oxygen-" ++ toString oxygen)
          else []
      | _ => []
    let o2 := match atom.get_var "plasmatanks" with
      | Constant.Int plasma =>
          if 5 ≤ plasma then add_to o1 atom "plasma-5"
          else if 0 < plasma then add_to o1 atom ("plasma-" ++ toString plasma)
          else o1
      | _ => o1
    (atom, o2)
  else
    (atom, [])

/-- `fancy_layer_for_path` from `mod.rs`: the fixed, ordered rule ladder
mapping a type path to a layer value, or `none` when no rule matches. -/
def fancy_layer_for_path (p : String) : Option Int :=
  if subpath p "/turf/open/floor/plating/" || subpath p "/turf/open/space/" then
    some (-10000)
  else if subpath p "/turf/closed/mineral/" then
    some (-3000)
  else if subpath p "/turf/open/floor/" || subpath p "/turf/closed/" then
    some (-2000)
  else if subpath p "/turf/" then
    some (-10000)
  else if subpath p "/obj/effect/turf_decal/" then
    some (-1000)
  else if subpath p "/obj/structure/disposalpipe/" then
    some (-6000)
  else if subpath p "/obj/machinery/atmospherics/pipe/" && !(strContains p "visible") then
    some (-5000)
  else if subpath p "/obj/structure/cable/" then
    some (-4000)
  else if subpath p "/obj/machinery/power/terminal/" then
    some (-3500)
  else if subpath p "/obj/structure/lattice/" then
    some (-8000)
  else if subpath p "/obj/machinery/navbeacon/" then
    some (-3000)
  else
    none

/-- `FancyLayers::adjust_sprite` from `mod.rs`: force the plane to 0, then
overwrite the layer only when the path ladder matches. -/
def fancyLayers_adjust_sprite (atom : Atom) (sprite : Sprite) : Sprite :=
  let s := { sprite with plane := 0 }
  match fancy_layer_for_path atom.path with
  | some layer => { s with layer := layer }
  | none => s

/-! ## Shared helper lemmas -/

/-- Membership in the configured pipeline, unfolded to the per-pass
decision. -/
theorem mem_configure_iff (incS excS : String) (p : RenderPassInfo) :
    p ∈ configure incS excS ↔
      p ∈ RENDER_PASSES ∧ passDecision (splitComma incS) (splitComma excS) p = true := by
  simp [configure, List.mem_filter]

/-- Reading back the variable just set yields the new value. -/
theorem get_var_set_same (a : Atom) (k : String) (v : Constant) :
    (a.set_var k v).get_var k = v := by
  simp [Atom.get_var, Atom.set_var, lookupVar]

/-- Setting one variable leaves every other variable's value unchanged. -/
theorem get_var_set_ne (a : Atom) (k k2 : String) (v : Constant) (h : k2 ≠ k) :
    (a.set_var k v).get_var k2 = a.get_var k2 := by
  simp [Atom.get_var, Atom.set_var, lookupVar, h]

/-! ## Claim C1: the Term/Expression round trip -/

/-- C1 counterexample: the round trip is not the identity on a term that is
itself a parenthesized bare term — `Term::Expr` around a `Base` wrapper with
empty unary and follow lists is stripped, so `(null)` comes back as `null`,
not as itself. -/
theorem term_roundtrip_counterexample :
    Term.fromExpression (Expression.fromTerm (Term.Expr (Expression.fromTerm Term.Null)))
      ≠ Term.Expr (Expression.fromTerm Term.Null) := by
  intro h
  exact Term.noConfusion h

/-- C1 (amended): for every term `t` that is not a parenthesized bare term
(not of the form `Term::Expr(Expression::Base { unary: [], term, follow: [] })`,
the shape whose redundant wrapper the conversion strips), converting `t` to
an expression with `Expression::from` and back with `Term::from` yields `t`
itself. -/
theorem term_roundtrip_id (t : Term)
    (h : ∀ t2 : Term, t ≠ Term.Expr (Expression.Base [] t2 [])) :
    Term.fromExpression (Expression.fromTerm t) = t := by
  cases t with
  | Expr e =>
      cases e with
      | Base u tm f =>
          cases u with
          | nil =>
              cases f with
              | nil => exact absurd rfl (h tm)
              | cons fh ft => simp [Expression.fromTerm, Term.fromExpression.eq_def]
          | cons uh ut => simp [Expression.fromTerm, Term.fromExpression.eq_def]
      | BinaryOp op l r => rfl
      | AssignOp op l r => rfl
  | Null => rfl
  | New ty args => rfl
  | List args => rfl
  | Call name args => rfl
  | Prefab p => rfl
  | Ident name => rfl
  | String s => rfl
  | Resource p => rfl
  | Int n => rfl
  | Float f => rfl

/-- C1 witness: the amended round-trip identity applied to the concrete term
`null`. -/
theorem term_roundtrip_id_witness :
    (∀ t2 : Term, Term.Null ≠ Term.Expr (Expression.Base [] t2 [])) ∧
      Term.fromExpression (Expression.fromTerm Term.Null) = Term.Null :=
  ⟨fun _ h => Term.noConfusion h,
   term_roundtrip_id Term.Null (fun _ h => Term.noConfusion h)⟩

/-! ## Claim C3: the compound-assignment/binary-operator mapping -/

/-- C3: the source stubs both directions of the mapping with `None  // TODO`,
so `AssignOp::binop` yields nothing even for `AddAssign` (where the claim —
and the spec's stated intent — demands `Some(Add)`), and `BinaryOp::assignop`
yields nothing even for `Add`. -/
theorem assignop_binop_stub :
    AssignOp.binop AssignOp.AddAssign = none ∧ BinaryOp.assignop BinaryOp.Add = none :=
  ⟨rfl, rfl⟩

/-! ## Claim C2: configure's priority order -/

/-- C2: for every registry pass, `configure` decides inclusion by this
priority: explicit include wins; otherwise explicit exclude wins; otherwise
the wildcard include token; otherwise the wildcard exclude token; otherwise
the pass's default-enabled flag. -/
theorem configure_priority (incS excS : String) (p : RenderPassInfo)
    (hp : p ∈ RENDER_PASSES) :
    (p.name ∈ splitComma incS → p ∈ configure incS excS) ∧
    (p.name ∉ splitComma incS → p.name ∈ splitComma excS → p ∉ configure incS excS) ∧
    (p.name ∉ splitComma incS → p.name ∉ splitComma excS →
      "all" ∈ splitComma incS → p ∈ configure incS excS) ∧
    (p.name ∉ splitComma incS → p.name ∉ splitComma excS →
      "all" ∉ splitComma incS → "all" ∈ splitComma excS → p ∉ configure incS excS) ∧
    (p.name ∉ splitComma incS → p.name ∉ splitComma excS →
      "all" ∉ splitComma incS → "all" ∉ splitComma excS →
      (p ∈ configure incS excS ↔ p.default = true)) := by
  refine ⟨fun h1 => ?_, fun h1 h2 => ?_, fun h1 h2 h3 => ?_, fun h1 h2 h3 h4 => ?_,
    fun h1 h2 h3 h4 => ?_⟩
  · exact (mem_configure_iff incS excS p).mpr ⟨hp, by simp [passDecision, h1]⟩
  · intro hmem
    have := ((mem_configure_iff incS excS p).mp hmem).2
    simp [passDecision, h1, h2] at this
  · exact (mem_configure_iff incS excS p).mpr ⟨hp, by simp [passDecision, h1, h2, h3]⟩
  · intro hmem
    have := ((mem_configure_iff incS excS p).mp hmem).2
    simp [passDecision, h1, h2, h3, h4] at this
  · rw [mem_configure_iff]
    simp [passDecision, h1, h2, h3, h4, hp]

/-- C2 witness: the priority theorem applied to the `pretty` pass with an
explicit include of its name. -/
theorem configure_priority_witness :
    "pretty" ∈ splitComma "pretty" ∧
    ({ name := "pretty", desc := "Add the minor cosmetic overlays for various objects.",
        default := true } : RenderPassInfo) ∈ configure "pretty" "" :=
  ⟨by decide,
   (configure_priority "pretty" ""
      { name := "pretty", desc := "Add the minor cosmetic overlays for various objects.",
        default := true } (by decide)).1 (by decide)⟩

/-! ## Claim C10: inclusion beats exclusion at equal specificity -/

/-- C10 counterexample: with include = "all" and exclude = "all,hide-space",
the "all" token appears in both lists, yet the hide-space pass is NOT
included — its explicit mention in the exclude list outranks the wildcard
include — refuting the claim that "all" in both lists includes every
registered pass. -/
theorem configure_all_both_counterexample :
    (splitComma "all").contains "all" = true ∧
    (splitComma "all,hide-space").contains "all" = true ∧
    ({ name := "hide-space", desc := "Do not render space tiles, instead leaving transparency.",
        default := true } : RenderPassInfo) ∈ RENDER_PASSES ∧
    ({ name := "hide-space", desc := "Do not render space tiles, instead leaving transparency.",
        default := true } : RenderPassInfo) ∉ configure "all" "all,hide-space" := by
  decide

/-- C10 (amended): inclusion beats exclusion at equal specificity — a pass
whose name appears in both lists is included, and when the "all" token
appears in both lists every registered pass NOT explicitly named in the
exclude list is included (a pass named in the exclude list but not in the
include list is excluded: the explicit checks precede both wildcard
checks, and the wildcard-include check precedes the wildcard-exclude
check). -/
theorem configure_inclusion_wins (incS excS : String) (p : RenderPassInfo)
    (hp : p ∈ RENDER_PASSES) :
    (p.name ∈ splitComma incS → p.name ∈ splitComma excS → p ∈ configure incS excS) ∧
    ("all" ∈ splitComma incS → "all" ∈ splitComma excS →
      p.name ∉ splitComma excS → p ∈ configure incS excS) ∧
    ("all" ∈ splitComma incS → p.name ∉ splitComma incS →
      p.name ∈ splitComma excS → p ∉ configure incS excS) := by
  refine ⟨fun h1 h2 => ?_, fun h1 h2 h3 => ?_, fun h1 h2 h3 => ?_⟩
  · exact (mem_configure_iff incS excS p).mpr ⟨hp, by simp [passDecision, h1]⟩
  · refine (mem_configure_iff incS excS p).mpr ⟨hp, ?_⟩
    by_cases hn : p.name ∈ splitComma incS
    · simp [passDecision, hn]
    · simp [passDecision, hn, h1, h3]
  · intro hmem
    have := ((mem_configure_iff incS excS p).mp hmem).2
    simp [passDecision, h2, h3] at this

/-- C10 witness: a pass named in both lists is included. -/
theorem configure_inclusion_wins_witness :
    "hide-areas" ∈ splitComma "hide-areas" ∧
    ({ name := "hide-areas", desc := "Do not render area icons.",
        default := true } : RenderPassInfo) ∈ configure "hide-areas" "hide-areas" :=
  ⟨by decide,
   (configure_inclusion_wins "hide-areas" "hide-areas"
      { name := "hide-areas", desc := "Do not render area icons.", default := true }
      (by decide)).1 (by decide) (by decide)⟩

/-! ## Claim C5: the wires configuration examples -/

/-- C5 counterexample: the Wires pass is registered under the name
"only-powernet", not "wires" — so include = "wires" does NOT put the Wires
pass in the pipeline, and exclude = "wires" does NOT remove it from an
include-all pipeline. -/
theorem configure_wires_counterexample :
    ((configure "wires" "").map RenderPassInfo.name).contains "only-powernet" = false ∧
    ((configure "all" "wires").map RenderPassInfo.name).contains "only-powernet" = true := by
  decide

/-- C5 (amended): with the Wires pass's registered name "only-powernet":
include = "only-powernet", exclude = "" yields exactly the Wires pass plus
every default-enabled pass, in registry order; include = "all",
exclude = "only-powernet" yields every registered pass except Wires. -/
theorem configure_powernet :
    (configure "only-powernet" "").map RenderPassInfo.name =
      ["hide-space", "hide-areas", "hide-invisible", "random", "pretty", "spawners",
       "fake-glass", "transit-tube", "gravity-gen", "only-powernet", "fancy-layers"] ∧
    (configure "all" "only-powernet").map RenderPassInfo.name =
      ["hide-space", "hide-areas", "hide-invisible", "random", "pretty", "spawners",
       "fake-glass", "transit-tube", "gravity-gen", "only-pipenet", "fancy-layers"] := by
  decide

/-! ## Claim C4: the Hide-space pass -/

/-- C4 counterexample: for the concrete placeholder atom, the pipeline
output contains zero open-space atoms — not exactly one — because the
open-space replacement emitted by `expand` is itself discarded by
`late_filter` (it does not survive it). -/
theorem hideSpace_claim_counterexample :
    (hideSpacePipeline [{ path := "/turf/template_noop", vars := [], loc := (0, 0, 0) }]).filter
        (fun a => a.istype "/turf/open/space/") = [] ∧
    hideSpace_late_filter (Atom.from_type "/turf/open/space" (0, 0, 0)) = false := by
  decide

/-- C4 (amended): for an atom typed as the placeholder turf, `expand`
consumes it and emits one open-space replacement, but that replacement is
itself typed as open-space and so is discarded by `late_filter`; the
pipeline output therefore contains zero atoms of either type (the
placeholder renders as transparency). -/
theorem hideSpace_transparency (a : Atom)
    (h : a.istype "/turf/template_noop/" = true) :
    hideSpace_expand a = ([Atom.from_type "/turf/open/space" a.loc], true) ∧
    hideSpace_late_filter (Atom.from_type "/turf/open/space" a.loc) = false ∧
    hideSpacePipeline [a] = [] := by
  have h2 : hideSpace_late_filter (Atom.from_type "/turf/open/space" a.loc) = false := rfl
  refine ⟨by simp [hideSpace_expand, h], h2, ?_⟩
  simp [hideSpacePipeline, hideSpace_expand, h, h2]

/-- C4 witness: the amended transparency theorem at a concrete placeholder
atom. -/
theorem hideSpace_transparency_witness :
    Atom.istype { path := "/turf/template_noop", vars := [], loc := (1, 2, 3) }
        "/turf/template_noop/" = true ∧
    hideSpacePipeline [{ path := "/turf/template_noop", vars := [], loc := (1, 2, 3) }] = [] :=
  ⟨by decide,
   (hideSpace_transparency { path := "/turf/template_noop", vars := [], loc := (1, 2, 3) }
      (by decide)).2.2⟩

/-! ## Claim C6: the Fake-glass pass -/

/-- C6: for a fake-glass atom, `overlays` pushes exactly two pseudo-atoms
onto the underlay accumulator — floor plating first, then the grille — with
the stated icon/icon_state pairs, pushes nothing onto the overlay
accumulator, and leaves the original atom's own `icon` and `icon_state`
unchanged; for any other atom it pushes nothing at all. -/
theorem fakeGlass_overlays_spec (a : Atom) :
    (a.istype "/turf/closed/indestructible/fakeglass/" = true →
      ((fakeGlass_overlays a).2.1.map (fun u => (u.get_var "icon", u.get_var "icon_state"))) =
        [(Constant.Str "icons/turf/floors.dmi", Constant.Str "plating"),
         (Constant.Str "icons/obj/structures.dmi", Constant.Str "grille")] ∧
      (fakeGlass_overlays a).2.2 = [] ∧
      (fakeGlass_overlays a).1.get_var "icon" = a.get_var "icon" ∧
      (fakeGlass_overlays a).1.get_var "icon_state" = a.get_var "icon_state") ∧
    (a.istype "/turf/closed/indestructible/fakeglass/" = false →
      fakeGlass_overlays a = (a, [], [])) := by
  constructor
  · intro h
    refine ⟨?_, by simp [fakeGlass_overlays, h], by simp [fakeGlass_overlays, h],
      by simp [fakeGlass_overlays, h]⟩
    have hrw : ∀ (b : Atom) (v : Constant),
        (b.set_var "icon_state" v).get_var "icon" = b.get_var "icon" :=
      fun b v => get_var_set_ne b _ _ v (by decide)
    simp only [fakeGlass_overlays, h, if_pos, List.map_cons, List.map_nil,
      hrw, get_var_set_same]
  · intro h
    simp [fakeGlass_overlays, h]

/-- C6 witness: the fake-glass overlay theorem at a concrete fake-glass
atom. -/
theorem fakeGlass_overlays_spec_witness :
    Atom.istype { path := "/turf/closed/indestructible/fakeglass", vars := [], loc := (0, 0, 0) }
        "/turf/closed/indestructible/fakeglass/" = true ∧
    ((fakeGlass_overlays
        { path := "/turf/closed/indestructible/fakeglass", vars := [], loc := (0, 0, 0) }).2.1.map
      (fun u => (u.get_var "icon", u.get_var "icon_state"))) =
      [(Constant.Str "icons/turf/floors.dmi", Constant.Str "plating"),
       (Constant.Str "icons/obj/structures.dmi", Constant.Str "grille")] :=
  ⟨by decide,
   ((fakeGlass_overlays_spec
      { path := "/turf/closed/indestructible/fakeglass", vars := [], loc := (0, 0, 0) }).1
      (by decide)).1⟩

/-! ## Claim C7: the Pretty pass's tank-dispenser tiers -/

/-- A tank-dispenser atom with the two tank-count variables resolved to the
given integers. -/
def tankDispenserAtom (n m : Int) (loc : Nat × Nat × Nat) : Atom :=
  { path := "/obj/structure/tank_dispenser",
    vars := [("oxygentanks", Constant.Int n), ("plasmatanks", Constant.Int m)],
    loc := loc }

/-- Does a constant look like an oxygen-tier overlay state (a string starting
with "oxygen-")? -/
def isOxygenState (c : Constant) : Bool :=
  match c with
  | Constant.Str s => leadsWith "oxygen-".toList s.toList
  | _ => false

/-- A plasma-tier overlay state never reads as an oxygen one. -/
theorem isOxygenState_plasma (s : String) :
    isOxygenState (Constant.Str ("plasma-" ++ s)) = false :=
  rfl

/-- The icon states `Pretty::overlays` pushes for a tank-dispenser atom:
the saturating oxygen tier followed by the saturating plasma tier. -/
theorem pretty_dispenser_eq (n m : Int) (loc : Nat × Nat × Nat) :
    ((pretty_overlays (tankDispenserAtom n m loc)).2.map (fun a => a.get_var "icon_state")) =
      (if 4 ≤ n then [Constant.Str "oxygen-4"]
       else if 0 < n then [Constant.Str ("oxygen-" ++ toString n)]
       else []) ++
      (if 5 ≤ m then [Constant.Str "plasma-5"]
       else if 0 < m then [Constant.Str ("plasma-" ++ toString m)]
       else []) := by
  have hbox : (tankDispenserAtom n m loc).istype "/obj/item/storage/box/" = false := rfl
  have hfire : (tankDispenserAtom n m loc).istype "/obj/machinery/firealarm/" = false := rfl
  have htank : (tankDispenserAtom n m loc).istype "/obj/structure/tank_dispenser/" = true := rfl
  have hoxy : (tankDispenserAtom n m loc).get_var "oxygentanks" = Constant.Int n := rfl
  have hpls : (tankDispenserAtom n m loc).get_var "plasmatanks" = Constant.Int m := rfl
  rw [pretty_overlays, hbox, hfire, htank, hoxy, hpls]
  by_cases h4 : 4 ≤ n <;> by_cases h0 : 0 < n <;> by_cases h5 : 5 ≤ m <;>
    by_cases hm0 : 0 < m <;>
    simp [h4, h0, h5, hm0, add_to, get_var_set_same]

/-- C7: for a tank-dispenser atom whose `oxygentanks` is the integer `n` and
`plasmatanks` the integer `m`: count 0 adds no oxygen overlay, count 2 adds
an "oxygen-2" overlay, count 5 adds an "oxygen-4" overlay, any count of 4 or
more saturates at "oxygen-4", and a plasma count of 5 or more saturates at
"plasma-5". -/
theorem pretty_tank_dispenser_tiers (n m : Int) (loc : Nat × Nat × Nat) :
    (∀ c ∈ ((pretty_overlays (tankDispenserAtom 0 m loc)).2.map
        (fun a => a.get_var "icon_state")), isOxygenState c = false) ∧
    Constant.Str "oxygen-2" ∈ ((pretty_overlays (tankDispenserAtom 2 m loc)).2.map
        (fun a => a.get_var "icon_state")) ∧
    Constant.Str "oxygen-4" ∈ ((pretty_overlays (tankDispenserAtom 5 m loc)).2.map
        (fun a => a.get_var "icon_state")) ∧
    (4 ≤ n → Constant.Str "oxygen-4" ∈ ((pretty_overlays (tankDispenserAtom n m loc)).2.map
        (fun a => a.get_var "icon_state"))) ∧
    (5 ≤ m → Constant.Str "plasma-5" ∈ ((pretty_overlays (tankDispenserAtom n m loc)).2.map
        (fun a => a.get_var "icon_state"))) := by
  refine ⟨?_, ?_, ?_, fun h4 => ?_, fun h5 => ?_⟩
  · rw [pretty_dispenser_eq]
    intro c hc
    rw [if_neg (by omega), if_neg (by omega), List.nil_append] at hc
    by_cases h5 : 5 ≤ m
    · rw [if_pos h5] at hc
      rw [List.mem_singleton.mp hc]
      exact isOxygenState_plasma "5"
    · rw [if_neg h5] at hc
      by_cases hm0 : 0 < m
      · rw [if_pos hm0] at hc
        rw [List.mem_singleton.mp hc]
        exact isOxygenState_plasma (toString m)
      · rw [if_neg hm0] at hc
        exact absurd hc (List.not_mem_nil c)
  · rw [pretty_dispenser_eq, if_neg (by omega), if_pos (by omega)]
    exact List.mem_append_left _ (by rw [show ("oxygen-" ++ toString (2 : Int)) = "oxygen-2" from rfl]; exact List.mem_singleton.mpr rfl)
  · rw [pretty_dispenser_eq, if_pos (by omega)]
    exact List.mem_append_left _ (List.mem_singleton.mpr rfl)
  · rw [pretty_dispenser_eq, if_pos h4]
    exact List.mem_append_left _ (List.mem_singleton.mpr rfl)
  · rw [pretty_dispenser_eq]
    refine List.mem_append_right _ ?_
    rw [if_pos h5]
    exact List.mem_singleton.mpr rfl

/-- C7 witness: the tier theorem applied at concrete saturating counts. -/
theorem pretty_tank_dispenser_tiers_witness :
    (4 : Int) ≤ 7 ∧
    Constant.Str "oxygen-4" ∈ ((pretty_overlays (tankDispenserAtom 7 9 (0, 0, 0))).2.map
      (fun a => a.get_var "icon_state")) ∧
    (5 : Int) ≤ 9 ∧
    Constant.Str "plasma-5" ∈ ((pretty_overlays (tankDispenserAtom 7 9 (0, 0, 0))).2.map
      (fun a => a.get_var "icon_state")) :=
  ⟨by decide,
   (pretty_tank_dispenser_tiers 7 9 (0, 0, 0)).2.2.2.1 (by decide),
   by decide,
   (pretty_tank_dispenser_tiers 7 9 (0, 0, 0)).2.2.2.2 (by decide)⟩

/-! ## Claim C8: the Fancy-layers pass -/

/-- C8: the fixed rule ladder sends the pipe-machinery path to layer −5000
and the generic closed-turf path to −2000 (first matching rule wins, as
embodied in the ordered ladder); when no rule matches, `adjust_sprite`
leaves the sprite's layer untouched; and the plane is forced to 0 for every
atom. -/
theorem fancyLayers_spec :
    fancy_layer_for_path "/obj/machinery/atmospherics/pipe/something" = some (-5000) ∧
    fancy_layer_for_path "/turf/closed/something" = some (-2000) ∧
    (∀ (a : Atom) (s : Sprite), fancy_layer_for_path a.path = none →
      (fancyLayers_adjust_sprite a s).layer = s.layer) ∧
    (∀ (a : Atom) (s : Sprite), (fancyLayers_adjust_sprite a s).plane = 0) := by
  refine ⟨by decide, by decide, fun a s h => ?_, fun a s => ?_⟩
  · simp [fancyLayers_adjust_sprite, h]
  · unfold fancyLayers_adjust_sprite
    cases h : fancy_layer_for_path a.path <;> simp [h]

/-- C8 witness: an unmatched path keeps its sprite's existing layer. -/
theorem fancyLayers_spec_witness :
    fancy_layer_for_path "/obj/item/pen" = none ∧
    (fancyLayers_adjust_sprite { path := "/obj/item/pen", vars := [], loc := (0, 0, 0) }
        { plane := 7, layer := 42 }).layer = 42 :=
  ⟨by decide,
   fancyLayers_spec.2.2.1 { path := "/obj/item/pen", vars := [], loc := (0, 0, 0) }
      { plane := 7, layer := 42 } (by decide)⟩

/-! ## Claim C9: the Hide-invisible pass -/

/-- C9: `early_filter` treats a missing or non-numeric `invisibility` as
zero and keeps the atom, provided it is not under the mapping-helpers branch
and does not match the disguised syndicate-balloon case; and any atom whose
numeric `invisibility` exceeds 60 is rejected. -/
theorem hideInvisible_spec (a : Atom) :
    ((a.get_var "invisibility").to_float = none →
      a.istype "/obj/effect/mapping_helpers/" = false →
      ((a.get_var "icon" == Constant.Str "icons/obj/items_and_weapons.dmi")
        && (a.get_var "icon_state" == Constant.Str "syndballoon")
        && !(a.istype "/obj/item/toy/syndicateballoon/")) = false →
      hideInvisible_early_filter a = true) ∧
    (∀ q : Rat, (a.get_var "invisibility").to_float = some q → 60 < q →
      hideInvisible_early_filter a = false) := by
  constructor
  · intro h1 h2 h3
    have h60 : ¬((0 : Rat) > 60) := by norm_num
    simp [hideInvisible_early_filter, h1, h2, h3, h60]
  · intro q hq h60
    have hv : (a.get_var "invisibility").to_float.getD 0 = q := by rw [hq]; rfl
    simp [hideInvisible_early_filter, hv, gt_iff_lt, h60]

/-- C9 witness: an ordinary atom with no `invisibility` variable at all is
kept. -/
theorem hideInvisible_spec_witness :
    (Atom.get_var { path := "/obj/structure/table", vars := [], loc := (0, 0, 0) }
        "invisibility").to_float = none ∧
    hideInvisible_early_filter { path := "/obj/structure/table", vars := [], loc := (0, 0, 0) }
      = true :=
  ⟨rfl,
   (hideInvisible_spec { path := "/obj/structure/table", vars := [], loc := (0, 0, 0) }).1
      rfl (by decide) (by decide)⟩

end DM
